import Mathlib

/-!
Shallow embedding of the Myia front-end translator (`src/myia/front.py`):
the scope tracker (`VariableTracker`), the syntax-directed `Parser`
(variable resolution, assignment, closure conversion, conditional and loop
normalization), and the dry-run loop-variable discovery pass
(`Parser.explore_vars`).

Python's mutable object state is threaded explicitly:

* `PState` carries the state shared across translator instances — the
  symbol-generator counters and the global definition table (`ParseEnv`).
* `Parser` carries the per-translator fields: the scope chain `vtrack`
  (a `VariableTracker` chain, innermost frame first), the `free_variables`
  map, the `local_assignments` set, the `returns` flag, and the
  construction flags (`dry`, `pull_free_variables`, `return_error`,
  `dest`, `top_level`).

Every visiting function takes and returns the `Parser` and the `PState`,
and returns `Except Err` where the Python code can raise
(`MyiaSyntaxError`, `NameError`, `TypeError`).
-/

set_option autoImplicit false

namespace Myia

/-- An identifier (`myia.ast.Symbol`). `myia/ast.py` is not under `src/`;
modelled from the spec (§3): a unique token, an optional namespace tag and
a display name, with "equality by uniqueness token, never by name".
Generated symbols carry a fresh `uid` from the generator counter; symbols
built directly with a namespace (`Symbol(name, namespace='global')`,
builtins) carry `uid = 0`. -/
structure Symbol where
  label : String
  ns : String
  uid : Nat
deriving DecidableEq, Repr

/-- Errors the translator can raise. `syn` is `MyiaSyntaxError`
(the spec's `TranslationError`); `nameError` is the Python `NameError`
raised by `VariableTracker.get_free`; `typeError` and `valErr` are the
host-language `TypeError` / `ValueError`. -/
inductive Err where
  | syn (msg : String)
  | nameError (msg : String)
  | typeError (msg : String)
  | valErr (msg : String)
deriving DecidableEq, Repr

/-- The Myia IR nodes produced by translation (`myia.ast`, modelled from
the spec §3). `assignN` is the `_Assign` pseudo-node that `body_wrapper`
later folds into `Let` bindings. `applyN` carries the `cannot_fail` tag
used by internally generated tuple-index operations. `Lambda` is not a
constructor here: `reg_lambda` only ever stores lambdas in the global
definition table and returns their reference symbol. -/
inductive MyiaNode where
  | symN (s : Symbol)
  | valN (v : Int)
  | applyN (fn : MyiaNode) (args : List MyiaNode) (cannotFail : Bool)
  | letN (bindings : List (Symbol × MyiaNode)) (body : MyiaNode)
  | beginN (stmts : List MyiaNode)
  | tupleN (elts : List MyiaNode)
  | closureN (fn : MyiaNode) (args : List MyiaNode)
  | assignN (sym : Symbol) (value : MyiaNode)
deriving Repr

/-- A function definition stored in the global table
(`myia.ast.Lambda`, modelled from the spec §3: ordered parameter
identifiers and a body). -/
structure LambdaDef where
  params : List Symbol
  body : MyiaNode
deriving Repr

/-- State shared across translator instances: the symbol generator
counters and the global definition table.

`genCtr` models `GenSym` and `genvCtr` models `ParseEnv.gen`; both are
modelled from the spec (§2, §4.1: the Symbol Generator "issues
globally-unique identifiers", `generate(base_name)` is "always fresh,
even for repeated base names"), since `myia/ast.py` is not under `src/`.
`globalEnv` is the `ParseEnv` bindings map, append-only. -/
structure PState where
  genCtr : Nat
  genvCtr : Nat
  globalEnv : List (Symbol × LambdaDef)
deriving Repr

/-- `GenSym.__call__(base_name)`: a fresh symbol, never equal to any
previously generated one (uid strictly increases). -/
def genS (st : PState) (base : String) : Symbol × PState :=
  (⟨base, "gen", st.genCtr + 1⟩, { st with genCtr := st.genCtr + 1 })

/-- `ParseEnv.gen(base_name)`: fresh symbol from the global table's own
generator. -/
def genvGenBase (st : PState) (base : String) : Symbol × PState :=
  (⟨base, "genv", st.genvCtr + 1⟩, { st with genvCtr := st.genvCtr + 1 })

/-- `ParseEnv.gen(parent_symbol, tag)`: a child identifier derived from an
existing one plus a discriminator (spec §4.1), used for the synthetic
branch/loop labels `✓ ✗ ↻ ⥁`. -/
def genvDerive (st : PState) (parent : Symbol) (tag : String) : Symbol × PState :=
  genvGenBase st (parent.label ++ tag)

/-- A builtin identifier (`myia.symbols.builtins`, fixed-identity
functions recognized by translation: index, getattr, setslice, switch,
identity — spec glossary). -/
def builtin (n : String) : Symbol := ⟨n, "builtin", 0⟩

def indexB : Symbol := builtin "index"
def setsliceB : Symbol := builtin "setslice"
def getattrB : Symbol := builtin "getattr"
def switchB : Symbol := builtin "switch"
def identityB : Symbol := builtin "identity"

/-- `myia.symbols.get_operator`: operator AST node kind mapped to a fixed
builtin identifier via table (spec §4.2); `myia/symbols.py` is not under
`src/`, so the table is modelled as the operator's name itself. -/
def getOperator (op : String) : Symbol := builtin op

/-- One frame of the scope chain: `VariableTracker.bindings`
(name-to-symbol, most recent binding first; rebinding a name shadows the
older pair, matching dict assignment). -/
abbrev Frame := List (String × Symbol)

/-- The scope chain: the innermost `VariableTracker`'s bindings first,
then its parent's, etc. -/
abbrev VTrack := List Frame

def lookupFrame : Frame → String → Option Symbol
  | [], _ => none
  | (k, v) :: rest, n => if k = n then some v else lookupFrame rest n

/-- `VariableTracker.get_free(name)`: whether the name is free (resolved
above the innermost frame) and its symbol; `none` when the name is absent
from the whole chain (Python raises `NameError` there). -/
def getFree : VTrack → String → Option (Bool × Symbol)
  | [], _ => none
  | f :: rest, n =>
    match lookupFrame f n with
    | some s => some (false, s)
    | none =>
      match getFree rest n with
      | some (_, s) => some (true, s)
      | none => none

/-- `VariableTracker.__getitem__`: `get_free(name)[1]`, raising
`NameError` when the name is absent from the whole chain. -/
def vtrackGet (vt : VTrack) (n : String) : Except Err Symbol :=
  match getFree vt n with
  | some (_, s) => .ok s
  | none => .error (.nameError ("Undeclared variable: " ++ n))

/-- `VariableTracker.__setitem__` on the innermost frame. -/
def bindVT (vt : VTrack) (n : String) (s : Symbol) : VTrack :=
  match vt with
  | [] => [[(n, s)]]
  | f :: rest => ((n, s) :: f) :: rest

/-- Ordered-dict assignment `d[k] = v`: update in place when the key is
present (keeping its original position), append otherwise. -/
def odSet : List (String × Symbol) → String → Symbol → List (String × Symbol)
  | [], k, v => [(k, v)]
  | (k', v') :: rest, k, v =>
    if k' = k then (k, v) :: rest else (k', v') :: odSet rest k v

/-- Ordered-dict key insertion for `local_assignments[name] = True`:
append the key when absent, keep the order otherwise. -/
def odInsertKey (l : List String) (k : String) : List String :=
  if l.contains k then l else l ++ [k]

/-- Ordered-dict `d1.update(d2)` restricted to key lists: keys of `d2`
not already in `d1` are appended in `d2`'s order. -/
def odUnion (l1 l2 : List String) : List String :=
  l1 ++ l2.filter (fun k => !l1.contains k)

def insertStr (a : String) : List String → List String
  | [] => [a]
  | b :: rest => if a < b then a :: b :: rest else b :: insertStr a rest

/-- Python's `sorted` on a list of distinct strings. -/
def sortStr : List String → List String
  | [] => []
  | a :: rest => insertStr a (sortStr rest)

/-- Python's `set(l1) == set(l2)` on key lists. -/
def sameStrSet (l1 l2 : List String) : Bool :=
  l1.all (fun k => l2.contains k) && l2.all (fun k => l1.contains k)

/-- The per-translator state of `front.Parser`.

`vtrack` is the scope chain (own frame first, then the enclosing
translators' frames — `sub_parser` sets `p.vtrack = VariableTracker(self.vtrack)`).
`freeVars` is the ordered `free_variables` map, `localAssign` the ordered
key set of `local_assignments`. -/
structure Parser where
  vtrack : VTrack
  freeVars : List (String × Symbol)
  localAssign : List String
  returns : Bool
  dry : Bool
  pullFree : Bool
  returnError : Option String
  dest : Symbol
  topLevel : Bool
deriving Repr

/-- `Parser.visit_variable(name)`: resolve through the scope chain; a name
absent everywhere becomes a global-namespace reference (the `NameError`
is caught); a free name is recorded in `free_variables`, and in
pulling mode a fresh local alias is allocated and substituted. -/
def visitVariable (self : Parser) (st : PState) (name : String) :
    Symbol × Parser × PState :=
  match getFree self.vtrack name with
  | none => (⟨name, "global", 0⟩, self, st)
  | some (false, v) => (v, self, st)
  | some (true, v) =>
    if self.pullFree then
      let (v', st') := genS st name
      let self' := { self with vtrack := bindVT self.vtrack name v' }
      ((v' : Symbol), { self' with freeVars := odSet self'.freeVars name v' }, st')
    else
      (v, { self with freeVars := odSet self.freeVars name v }, st)

/-- `Parser.new_variable(name)`: a fresh symbol with the given display
name, distinct from every previous one, bound in the innermost frame. -/
def newVariable (self : Parser) (st : PState) (name : String) :
    Symbol × Parser × PState :=
  let (sym, st') := genS st name
  (sym, { self with vtrack := bindVT self.vtrack name sym }, st')

/-- `Parser.make_assign(base_name, value)`: bind a brand-new identifier
for the name, record the name in `local_assignments`, return the
`_Assign` node. -/
def makeAssign (self : Parser) (st : PState) (name : String) (value : MyiaNode) :
    MyiaNode × Parser × PState :=
  let (sym, self, st) := newVariable self st name
  (.assignN sym value, { self with localAssign := odInsertKey self.localAssign name }, st)

/-- `Parser.reg_lambda(ref, args, body)`: build the `Lambda` and store it
at `ref` in the global table unless `dry`; return `ref`. -/
def regLambda (self : Parser) (st : PState) (ref : Symbol)
    (args : List Symbol) (body : MyiaNode) : Symbol × PState :=
  (ref, if self.dry then st
        else { st with globalEnv := st.globalEnv ++ [(ref, ⟨args, body⟩)] })

/-- The loop of `Parser.multi_assign` building one
`_Assign(a_i, Apply(index, tmp, Value(i), cannot_fail=True))` per target
name, indices counting up from `i`. -/
def multiAssignGo (self : Parser) (st : PState) (tmp : Symbol) :
    Nat → List String → List MyiaNode × Parser × PState
  | _, [] => ([], self, st)
  | i, a :: rest =>
    let idx := MyiaNode.applyN (.symN indexB) [.symN tmp, .valN (Int.ofNat i)] true
    let (stmt, self, st) := makeAssign self st a idx
    let (stmts, self, st) := multiAssignGo self st tmp (i + 1) rest
    (stmt :: stmts, self, st)

/-- `Parser.multi_assign(ass, expr)`: bind the tuple-returning expression
to a `#tmp` symbol, then unpack each component into a fresh identifier
via a `cannot_fail` index application. -/
def multiAssign (self : Parser) (st : PState) (ass : List String) (expr : MyiaNode) :
    MyiaNode × Parser × PState :=
  let (tmp, st) := genS st "#tmp"
  let (stmts, self, st) := multiAssignGo self st tmp 0 ass
  (.beginN (.assignN tmp expr :: stmts), self, st)

/-- Construction of a sub-parser (`Parser.sub_parser` plus the keyword
overrides used at each call site): the child's scope chain parents off
the current one; `free_variables`, `local_assignments` and `returns`
start empty; `dry` and `return_error` are inherited unless overridden;
`pull_free_variables` and `top_level` default to false. -/
def subParser (self : Parser) (dry : Bool) (pullFree : Bool)
    (returnError : Option String) (dest : Symbol) : Parser :=
  { vtrack := [] :: self.vtrack, freeVars := [], localAssign := [],
    returns := false, dry := dry, pullFree := pullFree,
    returnError := returnError, dest := dest, topLevel := false }

/-- `Parser.prepare_closure(variable=None, ref=r)`: a sub-parser in
pulling mode with the given destination symbol (the form used by
`visit_If`, where `ref` is always passed and `variable` is not). -/
def prepareClosureRef (self : Parser) (ref : Symbol) : Parser :=
  subParser self self.dry true self.returnError ref

/-- The list comprehension
`[self.visit_variable(v) for v in p.free_variables]` inside
`construct_closure`: resolve each captured name in the parent scope, in
first-encounter order, threading the parent's state. -/
def resolveCaptures (self : Parser) (st : PState) :
    List String → List MyiaNode × Parser × PState
  | [] => ([], self, st)
  | n :: rest =>
    let (v, self, st) := visitVariable self st n
    let (vs, self, st) := resolveCaptures self st rest
    (.symN v :: vs, self, st)

/-- `Parser.construct_closure(p, args, body, loc)`: the child's free
variables become the leading parameters of the registered `Lambda`; their
values are resolved in the parent scope; the result is a `Closure` when
at least one free variable was encountered, and the bare destination
symbol otherwise. -/
def constructClosure (self : Parser) (st : PState) (p : Parser)
    (args : List Symbol) (body : MyiaNode) : MyiaNode × Parser × PState :=
  let closArgs := p.freeVars.map Prod.snd
  let (closValues, self, st) := resolveCaptures self st (p.freeVars.map Prod.fst)
  let (lbda, st) := regLambda self st p.dest (closArgs ++ args) body
  if closArgs.length > 0 then
    (.closureN (.symN lbda) closValues, self, st)
  else
    (.symN lbda, self, st)

/-- The restricted Python expression subset the claims exercise
(`ast.Name`, `ast.Num`, `ast.BinOp`). -/
inductive PyExpr where
  | name (id : String)
  | num (n : Int)
  | binop (op : String) (l r : PyExpr)
deriving Repr

/-- Assignment / augmented-assignment targets (`node.targets[0]` resp.
`node.target`): a plain name, a subscript, or a tuple target. -/
inductive PyTarget where
  | tname (id : String)
  | tsubscript (base : PyExpr) (idx : PyExpr)
  | ttuple
deriving Repr

/-- The expression visitors `visit_Name` (via `visit_variable`),
`visit_Num` and `visit_BinOp`. None of them can raise. -/
def visitExpr (self : Parser) (st : PState) : PyExpr → MyiaNode × Parser × PState
  | .name n =>
    let (s, self, st) := visitVariable self st n
    (.symN s, self, st)
  | .num k => (.valN k, self, st)
  | .binop op l r =>
    let opSym := getOperator op
    let (l', self, st) := visitExpr self st l
    let (r', self, st) := visitExpr self st r
    (.applyN (.symN opSym) [l', r'] false, self, st)

/-- `myia.util.group_contiguous(nodes, is_assign)`: `myia/util.py` is not
under `src/`; modelled from the spec (§4.2 statement-block rule:
"contiguous assignment-producing translations merge into one Let;
non-assignment nodes break a run into Begin") — consecutive nodes with
the same predicate value are grouped, tagged by that value. -/
def groupContiguous (l : List MyiaNode) : List (Bool × List MyiaNode) :=
  match l with
  | [] => []
  | x :: xs =>
    let isAss := match x with | .assignN _ _ => true | _ => false
    match groupContiguous xs with
    | [] => [(isAss, [x])]
    | (b, g) :: rest =>
      if isAss = b then (b, x :: g) :: rest else (isAss, [x]) :: (b, g) :: rest

/-- Projection `(a.varname, a.value)` of an `_Assign` node (the grouping
predicate guarantees every node in an assignment group is one). -/
def assignParts : MyiaNode → Symbol × MyiaNode
  | .assignN s v => (s, v)
  | n => (⟨"", "", 0⟩, n)

/-- The `helper(groups, result)` closure inside `Parser.body_wrapper`:
fold the grouped statements into nested `Let`/`Begin`, the optional
`result` supplying the value after a trailing assignment run ("Missing
return statement." when there is none); a trailing non-assignment group
supplies the value itself (any `result` is dropped there, as in the
source). An empty group list is the Python `ValueError` from unpacking. -/
def bodyHelper : List (Bool × List MyiaNode) → Option MyiaNode → Except Err MyiaNode
  | [], _ => .error (.valErr "not enough values to unpack")
  | (isass, grp) :: rest, result =>
    if isass then
      let bindings := grp.map assignParts
      match rest with
      | [] =>
        match result with
        | none => .error (.syn "Missing return statement.")
        | some r => .ok (.letN bindings r)
      | _ =>
        match bodyHelper rest result with
        | .error e => .error e
        | .ok h => .ok (.letN bindings h)
    else
      match rest with
      | [] =>
        match grp with
        | [g] => .ok g
        | _ => .ok (.beginN grp)
      | _ =>
        match bodyHelper rest result with
        | .error e => .error e
        | .ok h => .ok (.beginN (grp ++ [h]))

mutual
/-- The restricted Python statement subset the claims exercise:
assignment, augmented assignment, `return`, expression statements, `if`,
`while` and (nested) `def`. A `funcDef` carries the argument-list flags
(`vararg`/`kwarg`, keyword-only arguments, defaults) and its decorator
count, which `visit_FunctionDef` validates. -/
inductive PyStmt where
  | assignStmt (targ : PyTarget) (value : PyExpr)
  | augAssign (targ : PyTarget) (op : String) (value : PyExpr)
  | retStmt (value : PyExpr)
  | exprStmt (value : PyExpr)
  | ifStmt (test : PyExpr) (body orelse : PyStmtList)
  | whileStmt (test : PyExpr) (body : PyStmtList)
  | funcDef (fname : String) (args : List String) (body : PyStmtList)
      (hasVararg hasKwonly hasDefaults : Bool) (numDecorators : Nat)

/-- A statement list (`node.body` / `node.orelse`), as its own inductive
so the visitor can recurse structurally. -/
inductive PyStmtList where
  | nil
  | cons (s : PyStmt) (rest : PyStmtList)
end

/-- The loop `for v in in_vars: self.visit_variable(v)` of `visit_While`
(results discarded, effects on the enclosing translator kept). -/
def visitVarsLoop (self : Parser) (st : PState) : List String → Parser × PState
  | [] => (self, st)
  | v :: rest =>
    let (_, self, st) := visitVariable self st v
    visitVarsLoop self st rest

/-- The comprehension `[p.new_variable(v) for v in in_vars]`. -/
def newVariables (self : Parser) (st : PState) :
    List String → List Symbol × Parser × PState
  | [] => ([], self, st)
  | v :: rest =>
    let (s, self, st) := newVariable self st v
    let (ss, self, st) := newVariables self st rest
    (s :: ss, self, st)

/-- The comprehension `[vt[v] for v in names]` over
`VariableTracker.__getitem__`, propagating its `NameError`. -/
def vtrackGetAll (vt : VTrack) : List String → Except Err (List Symbol)
  | [] => .ok []
  | v :: rest =>
    match vtrackGet vt v with
    | .error e => .error e
    | .ok s =>
      match vtrackGetAll vt rest with
      | .error e => .error e
      | .ok ss => .ok (s :: ss)

/-- The return-consistency error message of `visit_If`. -/
def ifReturnMsg : String :=
  "Either none or all branches of an if statement must return a value."

/-- The branch-assignment-mismatch error message of `visit_If`, listing
both branches' sorted assignment sets. -/
def ifAssignMsg (l1 l2 : List String) : String :=
  "All branches of an if statement must assign to the same set  of variables.\nTrue branch sets: "
    ++ String.intercalate " " (sortStr l1)
    ++ "\nElse branch sets: " ++ String.intercalate " " (sortStr l2)

/-- The `mkapply(then_finalize, else_finalize)` closure inside
`visit_If`: finish each branch body with its finalizer, close-convert
each branch against the enclosing translator, visit the test, and build
`Apply(Apply(switch, test, then_branch, else_branch))`. -/
def mkApplyIf (self : Parser) (st : PState) (t : PyExpr)
    (p1 : Parser) (g1 : List (Bool × List MyiaNode)) (tf : Option MyiaNode)
    (p2 : Parser) (g2 : List (Bool × List MyiaNode)) (ef : Option MyiaNode) :
    Except Err (MyiaNode × Parser × PState) :=
  match bodyHelper g1 tf with
  | .error e => .error e
  | .ok thenBody =>
    let (thenBranch, self, st) := constructClosure self st p1 [] thenBody
    match bodyHelper g2 ef with
    | .error e => .error e
    | .ok elseBody =>
      let (elseBranch, self, st) := constructClosure self st p2 [] elseBody
      let (testN, self, st) := visitExpr self st t
      (.ok (.applyN (.applyN (.symN switchB) [testN, thenBranch, elseBranch] false)
              [] false, self, st))

/-- The tail of `visit_If` after both branches were translated: the
return-consistency and assignment-set validations, then the outcome by
the number of locally assigned names (the list is the true branch's
`local_assignments` in first-assignment order). -/
def finishIf (self : Parser) (st : PState) (t : PyExpr)
    (p1 : Parser) (g1 : List (Bool × List MyiaNode))
    (p2 : Parser) (g2 : List (Bool × List MyiaNode)) :
    Except Err (MyiaNode × Parser × PState) :=
  if p1.returns != p2.returns then
    .error (.syn ifReturnMsg)
  else if sameStrSet p1.localAssign p2.localAssign = false then
    .error (.syn (ifAssignMsg p1.localAssign p2.localAssign))
  else if p1.returns then
    let self := { self with returns := true }
    mkApplyIf self st t p1 g1 none p2 g2 none
  else
    match p1.localAssign with
    | [a] =>
      match vtrackGet p1.vtrack a, vtrackGet p2.vtrack a with
      | .ok s1, .ok s2 =>
        (match mkApplyIf self st t p1 g1 (some (.symN s1)) p2 g2 (some (.symN s2)) with
         | .error e => .error e
         | .ok (app, self, st) =>
           let (node, self, st) := makeAssign self st a app
           .ok (node, self, st))
      | .error e, _ => .error e
      | _, .error e => .error e
    | ass =>
      match vtrackGetAll p1.vtrack ass, vtrackGetAll p2.vtrack ass with
      | .ok s1, .ok s2 =>
        (match mkApplyIf self st t p1 g1 (some (.tupleN (s1.map MyiaNode.symN)))
                 p2 g2 (some (.tupleN (s2.map MyiaNode.symN))) with
         | .error e => .error e
         | .ok (app, self, st) => .ok (multiAssign self st ass app))
      | .error e, _ => .error e
      | _, .error e => .error e

/-- `Parser.visit_FunctionDef`: validation of varargs, keyword-only
arguments, defaults and decorators, then the label/reference/variable
setup. The source then calls
`self.make_closure([...], node.body, loc=loc, label=node.name, ref=ref)`
(front.py lines 585-589), but `make_closure` (line 381) has no parameter
named `label` — its name parameter is `variable` — so Python raises
`TypeError` for the unexpected keyword argument before `make_closure`'s
body runs, instead of producing the `_Assign(sym, clos, loc)` of
line 590. -/
def visitFunctionDefCore (self : Parser) (st : PState) (allowDecorator : Bool)
    (fname : String) (_args : List String) (_body : PyStmtList)
    (hasVararg hasKwonly hasDefaults : Bool) (numDecorators : Nat) :
    Except Err (MyiaNode × Parser × PState) :=
  if hasVararg then .error (.syn "Varargs are not allowed.")
  else if hasKwonly then .error (.syn "Keyword-only arguments are not allowed.")
  else if hasDefaults then .error (.syn "Default arguments are not allowed.")
  else if allowDecorator = false ∧ numDecorators > 0 then
    .error (.syn "Functions should not have decorators.")
  else
    let lbl := if self.topLevel then fname else "#:" ++ fname
    let (_, st1) := genvGenBase st lbl
    let (_, self1, st2) := newVariable self st1 fname
    let _ := self1
    let _ := st2
    .error (.typeError "make_closure() got an unexpected keyword argument: label")

/-- The construction of the discarding translator at the start of
`Parser.explore_vars`: `self.sub_parser(global_env=ParseEnv(), dry=True)`
with its `return_error` overwritten by the parameter. The sub-parser has
its own fresh `GenSym` and a fresh private `ParseEnv`, so it starts on an
entirely fresh shared state; `Parser.__init__` draws the default `dest`
from that generator. -/
def dryStart (self : Parser) (retErr : Option String) : Parser × PState :=
  let dst : PState := { genCtr := 0, genvCtr := 0, globalEnv := [] }
  let (dest0, dst) := genS dst "#lambda"
  (subParser self true false retErr dest0, dst)

/-- The tail of `Parser.explore_vars`: `in_vars` is the free-variable
names updated with the locally assigned names (ordered-dict update), and
`out_vars` is the locally assigned names. -/
def dryFinish (testp : Parser) : List String × List String :=
  (odUnion (testp.freeVars.map Prod.fst) testp.localAssign, testp.localAssign)

mutual
/-- The statement dispatch of `front.Parser` (`visit_Assign`,
`visit_AugAssign`, `visit_Return`, `visit_Expr`, `visit_If`,
`visit_While`, `visit_FunctionDef`), threading the translator and the
shared state and returning the translated node.

The `while` arm inlines `explore_vars` (its body is the `dryStart` /
`visitExpr` / `visitStmtList` / `dryFinish` chain, duplicated here
because structural recursion cannot route it through the standalone
`exploreVars` wrapper below). -/
def visitStmt (self : Parser) (st : PState) : PyStmt → Except Err (MyiaNode × Parser × PState)
  | .assignStmt targ value =>
    match targ with
    | .ttuple => .error (.syn "Deconstructing assignment is not supported.")
    | .tsubscript base idx =>
      (match base with
       | .name bid =>
         let (val, self, st) := visitExpr self st value
         let (baseN, self, st) := visitExpr self st base
         let (idxN, self, st) := visitExpr self st idx
         let sl := MyiaNode.applyN (.symN setsliceB) [baseN, idxN, val] false
         let (node, self, st) := makeAssign self st bid sl
         .ok (node, self, st)
       | _ => .error (.syn "You can only set a slice on a variable."))
    | .tname id =>
      let (val, self, st) := visitExpr self st value
      let (node, self, st) := makeAssign self st id val
      .ok (node, self, st)
  | .augAssign targ op value =>
    match targ with
    | .tname id =>
      let (aug, self, st) := visitExpr self st value
      let opS := getOperator op
      let (_, self, st) := visitVariable self st id
      (match vtrackGet self.vtrack id with
       | .error e => .error e
       | .ok prev =>
         let val := MyiaNode.applyN (.symN opS) [.symN prev, aug] false
         let (node, self, st) := makeAssign self st id val
         .ok (node, self, st))
    | _ =>
      .error (.syn "Augmented assignment to subscripts or slices is not supported.")
  | .retStmt value =>
    match self.returnError with
    | some msg => .error (.syn msg)
    | none =>
      let self := { self with returns := true }
      let (v, self, st) := visitExpr self st value
      .ok (v, self, st)
  | .exprStmt value =>
    let (v, self, st) := visitExpr self st value
    .ok (v, self, st)
  | .ifStmt t b o =>
    let (r1, st) := genvDerive st self.dest "✓"
    let p1 := prepareClosureRef self r1
    (match visitStmtList p1 st b with
     | .error e => .error e
     | .ok (res1, p1, st) =>
       let (r2, st) := genvDerive st self.dest "✗"
       let p2 := prepareClosureRef self r2
       match visitStmtList p2 st o with
       | .error e => .error e
       | .ok (res2, p2, st) =>
         finishIf self st t p1 (groupContiguous res1) p2 (groupContiguous res2))
  | .whileStmt t b =>
    let (wsym, st) := genvDerive st self.dest "↻"
    let (wbsym, st) := genvDerive st self.dest "⥁"
    let (testp, dst) := dryStart self none
    let (_, testp, dst) := visitExpr testp dst t
    (match visitStmtList testp dst b with
     | .error e => .error e
     | .ok (_, testp, _) =>
       let io := dryFinish testp
       let inVars := io.1
       let outVars := io.2
       let (self, st) := visitVarsLoop self st inVars
       let p := subParser self self.dry false self.returnError wsym
       let (inSyms, p, st) := newVariables p st inVars
       match vtrackGetAll p.vtrack outVars with
       | .error e => .error e
       | .ok initialVals =>
         let (testN, p, st) := visitExpr p st t
         match visitStmtList p st b with
         | .error e => .error e
         | .ok (results, p, st) =>
           let g := groupContiguous results
           match vtrackGetAll p.vtrack inVars with
           | .error e => .error e
           | .ok recArgs =>
             match bodyHelper g
                 (some (.applyN (.symN wsym) (recArgs.map MyiaNode.symN) false)) with
             | .error e => .error e
             | .ok ifBody =>
               let (ifFn, st) := regLambda self st wbsym inSyms ifBody
               let newBody := MyiaNode.applyN
                 (.applyN (.symN switchB)
                   [testN,
                    .closureN (.symN ifFn) (inSyms.map MyiaNode.symN),
                    .closureN (.symN identityB) [.tupleN (initialVals.map MyiaNode.symN)]]
                   false) [] false
               let (_, st) := regLambda self st wsym inSyms newBody
               match vtrackGetAll self.vtrack inVars with
               | .error e => .error e
               | .ok selfArgs =>
                 let val := MyiaNode.applyN (.symN wsym) (selfArgs.map MyiaNode.symN) false
                 .ok (multiAssign self st outVars val))
  | .funcDef fname args body hv hk hd nd =>
    visitFunctionDefCore self st false fname args body hv hk hd nd

/-- The statement loop of `Parser.body_wrapper`: visit each statement
(failing with "There should be no statements after return." when the
`returns` flag was already set before it), flattening a returned `Begin`
into the result list. -/
def visitStmtList (self : Parser) (st : PState) : PyStmtList → Except Err (List MyiaNode × Parser × PState)
  | .nil => .ok ([], self, st)
  | .cons s rest =>
    let ret := self.returns
    match visitStmt self st s with
    | .error e => .error e
    | .ok (r, self, st) =>
      if ret then .error (.syn "There should be no statements after return.")
      else
        let rs := match r with | .beginN bs => bs | _ => [r]
        match visitStmtList self st rest with
        | .error e => .error e
        | .ok (more, self, st) => .ok (rs ++ more, self, st)
end

/-- `Parser.explore_vars(test, body)` as called by `visit_While`: the
dry, discovery-only pass on a discarding sub-parser with a fresh private
global table, returning the `in_vars`/`out_vars` name lists and leaving
the enclosing shared state untouched. -/
def exploreVars (self : Parser) (st : PState) (test : PyExpr) (body : PyStmtList)
    (retErr : Option String) : Except Err ((List String × List String) × PState) :=
  let (testp, dst) := dryStart self retErr
  let (_, testp, dst) := visitExpr testp dst test
  match visitStmtList testp dst body with
  | .error e => .error e
  | .ok (_, testp, _) => .ok (dryFinish testp, st)

/-- `Parser.prepare_closure(variable, ref)` in full generality: the
destination is `ref` or a fresh global symbol derived from `variable`,
and when `variable` is given it is bound in the child scope to the
destination before the body is translated (self-reference). -/
def prepareClosureGen (self : Parser) (st : PState) (varName : Option String)
    (refOpt : Option Symbol) : Parser × PState :=
  let (ref, st) :=
    match refOpt with
    | some r => (r, st)
    | none => genvGenBase st (varName.getD "#lambda")
  let p := prepareClosureRef self ref
  match varName with
  | some v => ({ p with vtrack := bindVT p.vtrack v ref }, st)
  | none => (p, st)

/-- `Parser.make_closure(args, body, variable, ref)` for a statement-list
body: prepare the child translator, bind the formal parameters, visit the
body (`visit_body = body_wrapper(stmts)(None)`), and construct the
closure. -/
def makeClosure (self : Parser) (st : PState) (args : List String)
    (body : PyStmtList) (varName : String) (refOpt : Option Symbol) :
    Except Err (MyiaNode × Parser × PState) :=
  let (p, st) := prepareClosureGen self st (some varName) refOpt
  let (sargs, p, st) := newVariables p st args
  match visitStmtList p st body with
  | .error e => .error e
  | .ok (results, p, st) =>
    match bodyHelper (groupContiguous results) none with
    | .error e => .error e
    | .ok fbody => .ok (constructClosure self st p sargs fbody)

/-- The top-level parser built by `parse_source` (`top_level=True`, not
dry, no return-error; `Parser.__init__` draws `dest` from the
generator). -/
def mkTopParser (st : PState) : Parser × PState :=
  let (d, st) := genS st "#lambda"
  ({ vtrack := [[]], freeVars := [], localAssign := [], returns := false,
     dry := false, pullFree := false, returnError := none, dest := d,
     topLevel := true }, st)

/-- The empty shared state of a fresh compilation unit. -/
def st0 : PState := { genCtr := 0, genvCtr := 0, globalEnv := [] }

/-- Whether a translation result is a success (no exception raised). -/
def isOkE : Except Err (MyiaNode × Parser × PState) → Bool
  | .ok _ => true
  | .error _ => false

/-- The translated node of a successful statement translation. -/
def resultNode : Except Err (MyiaNode × Parser × PState) → Option MyiaNode
  | .ok (n, _, _) => some n
  | .error _ => none

/-- Whether a node is an application. -/
def isApplyNode : MyiaNode → Bool
  | .applyN _ _ _ => true
  | _ => false

/-- Whether a node is a `Begin` holding exactly one `_Assign`. -/
def isBeginOneAssign : MyiaNode → Bool
  | .beginN [.assignN _ _] => true
  | _ => false

/-- A scratch parser for witnesses: the top-level parser with the name
`x` bound (as by `x = ...`). -/
def wParser : Parser := ((newVariable (mkTopParser st0).1 (mkTopParser st0).2 "x").2).1

/-- The shared state accompanying `wParser`. -/
def wState : PState := ((newVariable (mkTopParser st0).1 (mkTopParser st0).2 "x").2).2

/-- Fixture: the shared state after translating both branches and the
branch closures of `if c: a = 1; b = 2 else: a = 3; b = 4` on the
top-level parser (both branch lambdas registered; their bodies end in
tuples over `a`, `b` in the same order). -/
def c6St5 : PState :=
  { genCtr := 5, genvCtr := 2,
    globalEnv :=
      [(⟨"#lambda✓", "genv", 1⟩,
        ⟨[], .letN [(⟨"a", "gen", 2⟩, .valN 1), (⟨"b", "gen", 3⟩, .valN 2)]
              (.tupleN [.symN ⟨"a", "gen", 2⟩, .symN ⟨"b", "gen", 3⟩])⟩),
       (⟨"#lambda✗", "genv", 2⟩,
        ⟨[], .letN [(⟨"a", "gen", 4⟩, .valN 3), (⟨"b", "gen", 5⟩, .valN 4)]
              (.tupleN [.symN ⟨"a", "gen", 4⟩, .symN ⟨"b", "gen", 5⟩])⟩)] }

/-- Fixture: the switch application produced for that if-statement. -/
def c6App : MyiaNode :=
  .applyN (.applyN (.symN switchB)
    [.symN ⟨"c", "global", 0⟩, .symN ⟨"#lambda✓", "genv", 1⟩,
     .symN ⟨"#lambda✗", "genv", 2⟩] false) [] false

/-! ## Theorems -/

theorem odInsertKey_mem (l : List String) (k : String) : k ∈ odInsertKey l k := by
  unfold odInsertKey
  split
  · next h => exact List.elem_iff.mp h
  · next h => exact List.mem_append.mpr (Or.inr (by simp))

theorem resolveCaptures_length (ns : List String) :
    ∀ (self : Parser) (st : PState), ((resolveCaptures self st ns).1).length = ns.length := by
  induction ns with
  | nil => intro self st; rfl
  | cons n rest ih =>
    intro self st
    unfold resolveCaptures
    rcases hv : visitVariable self st n with ⟨v, self1, st1⟩
    rcases hr : resolveCaptures self1 st1 rest with ⟨vs, self2, st2⟩
    have := ih self1 st1
    rw [hr] at this
    simp [hv, hr, this]

/-- C1: every function-definition statement that passes the vararg,
keyword-only, default and decorator validations fails with the host
TypeError for the unexpected `label` keyword argument, instead of
producing the assignment of the constructed closure the spec promises:
`visit_FunctionDef` calls `make_closure(..., label=node.name, ...)` but
`make_closure`'s parameter is named `variable`. -/
theorem c1_functiondef_typeerror :
    ∀ (self : Parser) (st : PState) (allowDec : Bool) (fname : String)
      (args : List String) (body : PyStmtList),
    visitFunctionDefCore self st allowDec fname args body false false false 0 =
      .error (.typeError "make_closure() got an unexpected keyword argument: label") := by
  intro self st allowDec fname args body
  cases allowDec <;> simp [visitFunctionDefCore]

/-- C2: a name-read of a name bound nowhere in the scope chain resolves
to a Symbol with that name in the global namespace, raises no error, and
leaves the translator and the shared state untouched (the `NameError`
from `get_free` is caught and nothing is recorded). -/
theorem c2_unbound_name_global :
    ∀ (self : Parser) (st : PState) (name : String),
    getFree self.vtrack name = none →
    visitVariable self st name = (⟨name, "global", 0⟩, self, st) := by
  intro self st name h
  unfold visitVariable
  rw [h]

/-- Witness for C2 at a concrete unbound name on the top-level parser. -/
theorem c2_witness :
    visitVariable (mkTopParser st0).1 (mkTopParser st0).2 "q" =
      (⟨"q", "global", 0⟩, (mkTopParser st0).1, (mkTopParser st0).2) :=
  c2_unbound_name_global _ _ _ rfl

/-- C8: a while-loop whose body is a `return` statement translates
without any error at top level — the translation succeeds (the
return-prohibition machinery of `visit_Return` is never armed, because
`visit_While` passes no `return_error` to `explore_vars` and the real
sub-parser merely inherits the enclosing `None`), contradicting the
claimed distinct return-prohibition failure. -/
theorem c8_while_return_not_rejected :
    isOkE (visitStmt (mkTopParser st0).1 (mkTopParser st0).2
      (.whileStmt (.name "c") (.cons (.retStmt (.num 7)) .nil))) = true := rfl

/-- C9: the loop-variable discovery pass is pure with respect to the
shared state: a successful `explore_vars` returns the enclosing shared
state unchanged (in particular the global definition table's entry count
is unchanged), and running it again from the returned state yields the
identical `in_vars`/`out_vars` result. -/
theorem c9_explore_vars_pure :
    ∀ (self : Parser) (st : PState) (t : PyExpr) (b : PyStmtList)
      (retErr : Option String) (io : List String × List String) (st' : PState),
    exploreVars self st t b retErr = .ok (io, st') →
    st' = st ∧ st'.globalEnv.length = st.globalEnv.length ∧
    exploreVars self st' t b retErr = .ok (io, st') := by
  intro self st t b retErr io st' h
  unfold exploreVars at h ⊢
  rcases hd : dryStart self retErr with ⟨testp0, dst0⟩
  rw [hd] at h
  dsimp only at h ⊢
  rcases hve : visitExpr testp0 dst0 t with ⟨a, testp1, dst1⟩
  rw [hve] at h
  dsimp only at h ⊢
  rcases hvs : visitStmtList testp1 dst1 b with e | ⟨res, testp2, dst2⟩
  · rw [hvs] at h
    exact absurd h (by simp)
  · rw [hvs] at h
    dsimp only at h ⊢
    simp only [Except.ok.injEq, Prod.mk.injEq] at h
    obtain ⟨hio, hst⟩ := h
    subst hst
    exact ⟨rfl, rfl, by rw [hio]⟩

/-- Witness for C9 on a concrete while-loop fragment
(`while x < 0: y = 1` at top level, everything undeclared). -/
theorem c9_witness :
    (mkTopParser st0).2 = (mkTopParser st0).2 ∧
    (mkTopParser st0).2.globalEnv.length = (mkTopParser st0).2.globalEnv.length ∧
    exploreVars (mkTopParser st0).1 (mkTopParser st0).2 (.binop "lt" (.name "x") (.num 0))
        (.cons (.assignStmt (.tname "y") (.num 1)) .nil) none =
      .ok ((["y"], ["y"]), (mkTopParser st0).2) :=
  c9_explore_vars_pure (mkTopParser st0).1 (mkTopParser st0).2
    (.binop "lt" (.name "x") (.num 0))
    (.cons (.assignStmt (.tname "y") (.num 1)) .nil) none
    (["y"], ["y"]) (mkTopParser st0).2 rfl

/-- C3 counterexample: a while-loop whose test reads the name `x`,
declared nowhere (top-level parser, empty scope chain), does not make
the dry discovery pass fail — `explore_vars` succeeds, returning empty
`in_vars`/`out_vars`, because `visit_variable` turns the `NameError`
into a global-namespace reference. -/
theorem c3_counterexample :
    exploreVars (mkTopParser st0).1 (mkTopParser st0).2 (.name "x")
        (.cons (.exprStmt (.num 0)) .nil) none =
      .ok (([], []), (mkTopParser st0).2) := rfl

/-- C3 (amended): for a while-loop whose test is a plain read of a name
declared nowhere in the scope chain, the dry discovery pass succeeds
(treating the name as a global-namespace reference, per the resolution
rule) instead of failing with `UndeclaredVariable`. -/
theorem c3_dry_pass_resolves_globally :
    ∀ (self : Parser) (st : PState) (x : String),
    getFree self.vtrack x = none →
    exploreVars self st (.name x) (.cons (.exprStmt (.num 0)) .nil) none =
      .ok (([], []), st) := by
  intro self st x h
  simp [exploreVars, dryStart, subParser, genS, visitExpr, visitVariable,
        getFree, lookupFrame, h, visitStmtList, visitStmt, dryFinish, odUnion]

/-- Witness for the amended C3 at a concrete undeclared name. -/
theorem c3_witness :
    exploreVars (mkTopParser st0).1 (mkTopParser st0).2 (.name "zz")
        (.cons (.exprStmt (.num 0)) .nil) none =
      .ok (([], []), (mkTopParser st0).2) :=
  c3_dry_pass_resolves_globally (mkTopParser st0).1 (mkTopParser st0).2 "zz" rfl

/-- C7: `construct_closure` pairs the destination identifier with the
capture values — resolved in the parent scope, in first-encounter order
(`resolveCaptures` over the child's `free_variables` keys), one per
leading parameter of the registered `Lambda` (whose parameter list is the
capture symbols followed by the formals) — when the child encountered at
least one free variable, and returns the bare destination identifier when
it encountered none; the decision is made at construction time. Unless
the parent is discarding, the `Lambda` is appended to the global table at
the destination identifier; a discarding parent leaves it unchanged. -/
theorem c7_construct_closure :
    ∀ (self : Parser) (st : PState) (p : Parser) (args : List Symbol) (body : MyiaNode)
      (vals : List MyiaNode) (self' : Parser) (stMid : PState),
    resolveCaptures self st (p.freeVars.map Prod.fst) = (vals, self', stMid) →
    vals.length = p.freeVars.length ∧
    (p.freeVars = [] →
      constructClosure self st p args body =
        (.symN p.dest, self',
         (regLambda self' stMid p.dest (p.freeVars.map Prod.snd ++ args) body).2)) ∧
    (p.freeVars ≠ [] →
      constructClosure self st p args body =
        (.closureN (.symN p.dest) vals, self',
         (regLambda self' stMid p.dest (p.freeVars.map Prod.snd ++ args) body).2)) ∧
    (self'.dry = false →
      (regLambda self' stMid p.dest (p.freeVars.map Prod.snd ++ args) body).2.globalEnv =
        stMid.globalEnv ++ [(p.dest, ⟨p.freeVars.map Prod.snd ++ args, body⟩)]) ∧
    (self'.dry = true →
      (regLambda self' stMid p.dest (p.freeVars.map Prod.snd ++ args) body).2 = stMid) := by
  intro self st p args body vals self' stMid h
  have hlen : vals.length = p.freeVars.length := by
    have hl := resolveCaptures_length (p.freeVars.map Prod.fst) self st
    rw [h] at hl
    simpa using hl
  refine ⟨hlen, ?_, ?_, ?_, ?_⟩
  · intro he
    unfold constructClosure
    rw [h, he]
    simp [regLambda]
  · intro hne
    unfold constructClosure
    rw [h]
    dsimp only
    rw [if_pos]
    · simp [regLambda]
    · simpa [List.length_pos, List.map_eq_nil_iff] using hne
  · intro hd
    simp [regLambda, hd]
  · intro hd
    simp [regLambda, hd]

/-- Witness for C7: a child translator with one free variable `n`
(child of the top-level parser with `x` bound), applied at a concrete
body. -/
theorem c7_witness :
    (([MyiaNode.symN ⟨"n", "global", 0⟩] : List MyiaNode).length =
      ([("n", (⟨"n", "gen", 9⟩ : Symbol))] : List (String × Symbol)).length) ∧
    ((([("n", (⟨"n", "gen", 9⟩ : Symbol))] : List (String × Symbol)) = [] →
      constructClosure wParser wState
          { prepareClosureRef wParser (builtin "f") with
            freeVars := [("n", ⟨"n", "gen", 9⟩)] } [] (.valN 1) =
        (.symN (builtin "f"), wParser,
         (regLambda wParser wState (builtin "f") ([⟨"n", "gen", 9⟩] ++ []) (.valN 1)).2))) ∧
    ((([("n", (⟨"n", "gen", 9⟩ : Symbol))] : List (String × Symbol)) ≠ [] →
      constructClosure wParser wState
          { prepareClosureRef wParser (builtin "f") with
            freeVars := [("n", ⟨"n", "gen", 9⟩)] } [] (.valN 1) =
        (.closureN (.symN (builtin "f")) [.symN ⟨"n", "global", 0⟩], wParser,
         (regLambda wParser wState (builtin "f") ([⟨"n", "gen", 9⟩] ++ []) (.valN 1)).2))) ∧
    (wParser.dry = false →
      (regLambda wParser wState (builtin "f") ([⟨"n", "gen", 9⟩] ++ []) (.valN 1)).2.globalEnv =
        wState.globalEnv ++ [(builtin "f", ⟨[⟨"n", "gen", 9⟩] ++ [], .valN 1⟩)]) ∧
    (wParser.dry = true →
      (regLambda wParser wState (builtin "f") ([⟨"n", "gen", 9⟩] ++ []) (.valN 1)).2 = wState) :=
  c7_construct_closure wParser wState
    { prepareClosureRef wParser (builtin "f") with freeVars := [("n", ⟨"n", "gen", 9⟩)] }
    [] (.valN 1) [.symN ⟨"n", "global", 0⟩] wParser wState rfl

theorem visitStmt_ifStmt_eq :
    ∀ (self : Parser) (st : PState) (t : PyExpr) (b o : PyStmtList)
      (res1 : List MyiaNode) (p1 : Parser) (st2 : PState)
      (res2 : List MyiaNode) (p2 : Parser) (st4 : PState),
    visitStmtList (prepareClosureRef self (genvDerive st self.dest "✓").1)
        (genvDerive st self.dest "✓").2 b = .ok (res1, p1, st2) →
    visitStmtList (prepareClosureRef self (genvDerive st2 self.dest "✗").1)
        (genvDerive st2 self.dest "✗").2 o = .ok (res2, p2, st4) →
    visitStmt self st (.ifStmt t b o) =
      finishIf self st4 t p1 (groupContiguous res1) p2 (groupContiguous res2) := by
  intro self st t b o res1 p1 st2 res2 p2 st4 h1 h2
  rcases hg1 : genvDerive st self.dest "✓" with ⟨r1, stA⟩
  rw [hg1] at h1
  rcases hg2 : genvDerive st2 self.dest "✗" with ⟨r2, stB⟩
  rw [hg2] at h2
  simp only [visitStmt, hg1]
  rw [h1]
  simp only [hg2]
  rw [h2]

/-- C4: once both branches of an if-statement have been translated, a
mismatch in the branches' has-returned flags makes the whole statement
fail with the return-consistency `MyiaSyntaxError`, and (that check
passing) a mismatch in the branches' locally-assigned name sets makes it
fail with the assignment-mismatch `MyiaSyntaxError` listing both sorted
sets; in neither case is any union or intersection of the sets used. -/
theorem c4_if_branch_validation :
    ∀ (self : Parser) (st : PState) (t : PyExpr) (b o : PyStmtList)
      (res1 : List MyiaNode) (p1 : Parser) (st2 : PState)
      (res2 : List MyiaNode) (p2 : Parser) (st4 : PState),
    visitStmtList (prepareClosureRef self (genvDerive st self.dest "✓").1)
        (genvDerive st self.dest "✓").2 b = .ok (res1, p1, st2) →
    visitStmtList (prepareClosureRef self (genvDerive st2 self.dest "✗").1)
        (genvDerive st2 self.dest "✗").2 o = .ok (res2, p2, st4) →
    (p1.returns ≠ p2.returns →
      visitStmt self st (.ifStmt t b o) = .error (.syn ifReturnMsg)) ∧
    (p1.returns = p2.returns →
      sameStrSet p1.localAssign p2.localAssign = false →
      visitStmt self st (.ifStmt t b o) =
        .error (.syn (ifAssignMsg p1.localAssign p2.localAssign))) := by
  intro self st t b o res1 p1 st2 res2 p2 st4 h1 h2
  have he := visitStmt_ifStmt_eq self st t b o res1 p1 st2 res2 p2 st4 h1 h2
  constructor
  · intro hr
    rw [he]
    unfold finishIf
    have hb : (p1.returns != p2.returns) = true := by
      cases hp : p1.returns <;> cases hq : p2.returns <;> simp_all
    rw [if_pos hb]
  · intro hr hs
    rw [he]
    unfold finishIf
    have hb : ¬ ((p1.returns != p2.returns) = true) := by
      rw [hr]; simp
    rw [if_neg hb, if_pos hs]

/-- Witness for C4 at `if c: return 1 else: x = 2` (returns-flag
mismatch) on the top-level parser. -/
theorem c4_witness :
    visitStmt (mkTopParser st0).1 (mkTopParser st0).2
        (.ifStmt (.name "c") (.cons (.retStmt (.num 1)) .nil)
          (.cons (.assignStmt (.tname "x") (.num 2)) .nil)) =
      .error (.syn ifReturnMsg) := by
  have h := c4_if_branch_validation (mkTopParser st0).1 (mkTopParser st0).2
    (.name "c") (.cons (.retStmt (.num 1)) .nil)
    (.cons (.assignStmt (.tname "x") (.num 2)) .nil)
    [.valN 1]
    { vtrack := [[], []], freeVars := [], localAssign := [], returns := true,
      dry := false, pullFree := true, returnError := none,
      dest := ⟨"#lambda✓", "genv", 1⟩, topLevel := false }
    { genCtr := 1, genvCtr := 1, globalEnv := [] }
    [.assignN ⟨"x", "gen", 2⟩ (.valN 2)]
    { vtrack := [[("x", ⟨"x", "gen", 2⟩)], []], freeVars := [], localAssign := ["x"],
      returns := false, dry := false, pullFree := true, returnError := none,
      dest := ⟨"#lambda✗", "genv", 2⟩, topLevel := false }
    { genCtr := 2, genvCtr := 2, globalEnv := [] }
    rfl rfl
  exact h.1 (by decide)

/-- C5 counterexample: for `if c: 1 else: 2` (neither branch returns,
no branch assigns anything) the translation is not a bare switch
application — it is a `Begin` holding a single `_Assign` binding the
switch application to a fresh `#tmp` identifier (`multi_assign` with an
empty name list). -/
theorem c5_counterexample :
    (resultNode (visitStmt (mkTopParser st0).1 (mkTopParser st0).2
        (.ifStmt (.name "c") (.cons (.exprStmt (.num 1)) .nil)
          (.cons (.exprStmt (.num 2)) .nil)))).map isApplyNode = some false ∧
    (resultNode (visitStmt (mkTopParser st0).1 (mkTopParser st0).2
        (.ifStmt (.name "c") (.cons (.exprStmt (.num 1)) .nil)
          (.cons (.exprStmt (.num 2)) .nil)))).map isBeginOneAssign = some true :=
  ⟨rfl, rfl⟩

/-- C5 (amended): an if-statement in which neither branch returns and
the locally-assigned name set is empty translates to the branchless
switch application (both branch finalizers are empty tuples), but the
application is bound to a fresh `#tmp` identifier by a single `_Assign`
inside a `Begin` rather than emitted bare. -/
theorem c5_empty_assign_tmp_bound :
    ∀ (self : Parser) (st : PState) (t : PyExpr) (b o : PyStmtList)
      (res1 : List MyiaNode) (p1 : Parser) (st2 : PState)
      (res2 : List MyiaNode) (p2 : Parser) (st4 : PState)
      (app : MyiaNode) (self2 : Parser) (st5 : PState),
    visitStmtList (prepareClosureRef self (genvDerive st self.dest "✓").1)
        (genvDerive st self.dest "✓").2 b = .ok (res1, p1, st2) →
    visitStmtList (prepareClosureRef self (genvDerive st2 self.dest "✗").1)
        (genvDerive st2 self.dest "✗").2 o = .ok (res2, p2, st4) →
    p1.returns = false → p2.returns = false →
    p1.localAssign = [] → p2.localAssign = [] →
    mkApplyIf self st4 t p1 (groupContiguous res1) (some (.tupleN []))
        p2 (groupContiguous res2) (some (.tupleN [])) = .ok (app, self2, st5) →
    visitStmt self st (.ifStmt t b o) =
      .ok (.beginN [.assignN (genS st5 "#tmp").1 app], self2, (genS st5 "#tmp").2) := by
  intro self st t b o res1 p1 st2 res2 p2 st4 app self2 st5 h1 h2 hr1 hr2 ha1 ha2 happ
  rw [visitStmt_ifStmt_eq self st t b o res1 p1 st2 res2 p2 st4 h1 h2]
  unfold finishIf
  rw [hr1, hr2, ha1, ha2]
  simp [vtrackGetAll, sameStrSet, happ, multiAssign, multiAssignGo, genS]

/-- Witness for the amended C5 at `if c: 1 else: 2` on the top-level
parser. -/
theorem c5_witness :
    visitStmt (mkTopParser st0).1 (mkTopParser st0).2
        (.ifStmt (.name "c") (.cons (.exprStmt (.num 1)) .nil)
          (.cons (.exprStmt (.num 2)) .nil)) =
      .ok (.beginN [.assignN
            (genS { genCtr := 1, genvCtr := 2,
                    globalEnv := [(⟨"#lambda✓", "genv", 1⟩, ⟨[], .valN 1⟩),
                                  (⟨"#lambda✗", "genv", 2⟩, ⟨[], .valN 2⟩)] } "#tmp").1
            (.applyN (.applyN (.symN switchB)
               [.symN ⟨"c", "global", 0⟩, .symN ⟨"#lambda✓", "genv", 1⟩,
                .symN ⟨"#lambda✗", "genv", 2⟩] false) [] false)],
           (mkTopParser st0).1,
           (genS { genCtr := 1, genvCtr := 2,
                   globalEnv := [(⟨"#lambda✓", "genv", 1⟩, ⟨[], .valN 1⟩),
                                 (⟨"#lambda✗", "genv", 2⟩, ⟨[], .valN 2⟩)] } "#tmp").2) :=
  c5_empty_assign_tmp_bound (mkTopParser st0).1 (mkTopParser st0).2
    (.name "c") (.cons (.exprStmt (.num 1)) .nil) (.cons (.exprStmt (.num 2)) .nil)
    [.valN 1]
    { vtrack := [[], []], freeVars := [], localAssign := [], returns := false,
      dry := false, pullFree := true, returnError := none,
      dest := ⟨"#lambda✓", "genv", 1⟩, topLevel := false }
    { genCtr := 1, genvCtr := 1, globalEnv := [] }
    [.valN 2]
    { vtrack := [[], []], freeVars := [], localAssign := [], returns := false,
      dry := false, pullFree := true, returnError := none,
      dest := ⟨"#lambda✗", "genv", 2⟩, topLevel := false }
    { genCtr := 1, genvCtr := 2, globalEnv := [] }
    (.applyN (.applyN (.symN switchB)
       [.symN ⟨"c", "global", 0⟩, .symN ⟨"#lambda✓", "genv", 1⟩,
        .symN ⟨"#lambda✗", "genv", 2⟩] false) [] false)
    (mkTopParser st0).1
    { genCtr := 1, genvCtr := 2,
      globalEnv := [(⟨"#lambda✓", "genv", 1⟩, ⟨[], .valN 1⟩),
                    (⟨"#lambda✗", "genv", 2⟩, ⟨[], .valN 2⟩)] }
    rfl rfl rfl rfl rfl rfl rfl



theorem multiAssignGo_spec (l : List String) :
    ∀ (self : Parser) (st : PState) (tmp : Symbol) (i : Nat),
    ((multiAssignGo self st tmp i l).1).length = l.length ∧
    (∀ j, j < l.length → ∃ s : Symbol,
      ((multiAssignGo self st tmp i l).1).get? j =
        some (.assignN s (.applyN (.symN indexB)
          [.symN tmp, .valN (Int.ofNat (i + j))] true)) ∧
      some s.label = l.get? j) := by
  induction l with
  | nil =>
    intro self st tmp i
    exact ⟨rfl, fun j hj => absurd hj (by simp)⟩
  | cons a rest ih =>
    intro self st tmp i
    have hred : (multiAssignGo self st tmp i (a :: rest)).1 =
        MyiaNode.assignN ⟨a, "gen", st.genCtr + 1⟩
            (.applyN (.symN indexB) [.symN tmp, .valN (Int.ofNat i)] true) ::
          (multiAssignGo
            { self with vtrack := bindVT self.vtrack a ⟨a, "gen", st.genCtr + 1⟩,
                        localAssign := odInsertKey self.localAssign a }
            { st with genCtr := st.genCtr + 1 } tmp (i + 1) rest).1 := by
      conv_lhs => rw [multiAssignGo]
      simp [makeAssign, newVariable, genS]
    constructor
    · rw [hred]
      simp [(ih _ _ tmp (i + 1)).1]
    · intro j hj
      match j with
      | 0 =>
        refine ⟨⟨a, "gen", st.genCtr + 1⟩, ?_, rfl⟩
        rw [hred]
        simp only [List.get?_cons_zero, Nat.add_zero]
      | Nat.succ j' =>
        have hj' : j' < rest.length := by simpa using hj
        obtain ⟨s, hs1, hs2⟩ := (ih
          { self with vtrack := bindVT self.vtrack a ⟨a, "gen", st.genCtr + 1⟩,
                      localAssign := odInsertKey self.localAssign a }
          { st with genCtr := st.genCtr + 1 } tmp (i + 1)).2 j' hj'
        refine ⟨s, ?_, by simpa using hs2⟩
        rw [hred]
        have harith : i + Nat.succ j' = i + 1 + j' := by omega
        simp only [List.get?_cons_succ, harith]
        exact hs1

/-- C6: an if-statement in which neither branch returns and both
branches assign the same set of two or more names is translated with one
fixed order — the true branch's first-assignment order
`p1.localAssign = x :: y :: rest` — used for both branches' packed
tuples (the `mkApplyIf` finalizers are `Tuple`s over that same list for
both branches), and is followed by an unpack that assigns component `j`
to the name at position `j` of that list via an
`Apply(index, #tmp, j)` carrying the `cannot_fail` tag. -/
theorem c6_multi_assign_merge :
    ∀ (self : Parser) (st : PState) (t : PyExpr) (b o : PyStmtList)
      (res1 : List MyiaNode) (p1 : Parser) (st2 : PState)
      (res2 : List MyiaNode) (p2 : Parser) (st4 : PState)
      (x y : String) (rest : List String)
      (syms1 syms2 : List Symbol) (app : MyiaNode) (self2 : Parser) (st5 : PState),
    visitStmtList (prepareClosureRef self (genvDerive st self.dest "✓").1)
        (genvDerive st self.dest "✓").2 b = .ok (res1, p1, st2) →
    visitStmtList (prepareClosureRef self (genvDerive st2 self.dest "✗").1)
        (genvDerive st2 self.dest "✗").2 o = .ok (res2, p2, st4) →
    p1.returns = false → p2.returns = false →
    p1.localAssign = x :: y :: rest →
    sameStrSet (x :: y :: rest) p2.localAssign = true →
    vtrackGetAll p1.vtrack (x :: y :: rest) = .ok syms1 →
    vtrackGetAll p2.vtrack (x :: y :: rest) = .ok syms2 →
    mkApplyIf self st4 t p1 (groupContiguous res1)
        (some (.tupleN (syms1.map MyiaNode.symN)))
        p2 (groupContiguous res2)
        (some (.tupleN (syms2.map MyiaNode.symN))) = .ok (app, self2, st5) →
    ∃ (stmts : List MyiaNode) (self3 : Parser) (st6 : PState),
      visitStmt self st (.ifStmt t b o) =
        .ok (.beginN (.assignN (genS st5 "#tmp").1 app :: stmts), self3, st6) ∧
      stmts.length = (x :: y :: rest).length ∧
      (∀ j, j < (x :: y :: rest).length → ∃ s : Symbol,
        stmts.get? j = some (.assignN s (.applyN (.symN indexB)
          [.symN (genS st5 "#tmp").1, .valN (Int.ofNat j)] true)) ∧
        some s.label = (x :: y :: rest).get? j) := by
  intro self st t b o res1 p1 st2 res2 p2 st4 x y rest syms1 syms2 app self2 st5
  intro h1 h2 hr1 hr2 ha hset hv1 hv2 happ
  rw [visitStmt_ifStmt_eq self st t b o res1 p1 st2 res2 p2 st4 h1 h2]
  unfold finishIf
  rw [hr1, hr2, ha, hset]
  simp only [bne_self_eq_false, Bool.false_eq_true, if_false]
  rw [if_neg (by simp)]
  rw [hv1, hv2]
  dsimp only
  rw [happ]
  refine ⟨(multiAssignGo self2 { st5 with genCtr := st5.genCtr + 1 }
      ⟨"#tmp", "gen", st5.genCtr + 1⟩ 0 (x :: y :: rest)).1,
    (multiAssignGo self2 { st5 with genCtr := st5.genCtr + 1 }
      ⟨"#tmp", "gen", st5.genCtr + 1⟩ 0 (x :: y :: rest)).2.1,
    (multiAssignGo self2 { st5 with genCtr := st5.genCtr + 1 }
      ⟨"#tmp", "gen", st5.genCtr + 1⟩ 0 (x :: y :: rest)).2.2, ?_, ?_, ?_⟩
  · simp [multiAssign, genS]
  · exact (multiAssignGo_spec (x :: y :: rest) self2
      { st5 with genCtr := st5.genCtr + 1 } ⟨"#tmp", "gen", st5.genCtr + 1⟩ 0).1
  · intro j hj
    obtain ⟨s, hs1, hs2⟩ := (multiAssignGo_spec (x :: y :: rest) self2
      { st5 with genCtr := st5.genCtr + 1 } ⟨"#tmp", "gen", st5.genCtr + 1⟩ 0).2 j hj
    exact ⟨s, by simpa [genS] using hs1, hs2⟩

/-- Witness for C6 at `if c: a = 1; b = 2 else: a = 3; b = 4` on the
top-level parser. -/
theorem c6_witness :
    ∃ (stmts : List MyiaNode) (self3 : Parser) (st6 : PState),
      visitStmt (mkTopParser st0).1 (mkTopParser st0).2
          (.ifStmt (.name "c")
            (.cons (.assignStmt (.tname "a") (.num 1))
              (.cons (.assignStmt (.tname "b") (.num 2)) .nil))
            (.cons (.assignStmt (.tname "a") (.num 3))
              (.cons (.assignStmt (.tname "b") (.num 4)) .nil))) =
        .ok (.beginN (.assignN (genS c6St5 "#tmp").1 c6App :: stmts), self3, st6) ∧
      stmts.length = ("a" :: "b" :: ([] : List String)).length ∧
      (∀ j, j < ("a" :: "b" :: ([] : List String)).length → ∃ s : Symbol,
        stmts.get? j = some (.assignN s (.applyN (.symN indexB)
          [.symN (genS c6St5 "#tmp").1, .valN (Int.ofNat j)] true)) ∧
        some s.label = ("a" :: "b" :: ([] : List String)).get? j) :=
  c6_multi_assign_merge (mkTopParser st0).1 (mkTopParser st0).2 (.name "c")
    (.cons (.assignStmt (.tname "a") (.num 1))
      (.cons (.assignStmt (.tname "b") (.num 2)) .nil))
    (.cons (.assignStmt (.tname "a") (.num 3))
      (.cons (.assignStmt (.tname "b") (.num 4)) .nil))
    [.assignN ⟨"a", "gen", 2⟩ (.valN 1), .assignN ⟨"b", "gen", 3⟩ (.valN 2)]
    { vtrack := [[("b", ⟨"b", "gen", 3⟩), ("a", ⟨"a", "gen", 2⟩)], []], freeVars := [],
      localAssign := ["a", "b"], returns := false, dry := false, pullFree := true,
      returnError := none, dest := ⟨"#lambda✓", "genv", 1⟩, topLevel := false }
    { genCtr := 3, genvCtr := 1, globalEnv := [] }
    [.assignN ⟨"a", "gen", 4⟩ (.valN 3), .assignN ⟨"b", "gen", 5⟩ (.valN 4)]
    { vtrack := [[("b", ⟨"b", "gen", 5⟩), ("a", ⟨"a", "gen", 4⟩)], []], freeVars := [],
      localAssign := ["a", "b"], returns := false, dry := false, pullFree := true,
      returnError := none, dest := ⟨"#lambda✗", "genv", 2⟩, topLevel := false }
    { genCtr := 5, genvCtr := 2, globalEnv := [] }
    "a" "b" []
    [⟨"a", "gen", 2⟩, ⟨"b", "gen", 3⟩]
    [⟨"a", "gen", 4⟩, ⟨"b", "gen", 5⟩]
    c6App (mkTopParser st0).1 c6St5
    rfl rfl rfl rfl rfl rfl rfl rfl rfl

theorem getFree_bindVT_isSome (vt : VTrack) (n k : String) (s : Symbol)
    (h : (getFree vt n).isSome = true) :
    (getFree (bindVT vt k s) n).isSome = true := by
  cases vt with
  | nil => simp [getFree] at h
  | cons f rest =>
    show (getFree (((k, s) :: f) :: rest) n).isSome = true
    by_cases hk : k = n
    · simp [getFree, lookupFrame, hk]
    · have hlk : lookupFrame ((k, s) :: f) n = lookupFrame f n := by
        simp [lookupFrame, hk]
      have heq : getFree (((k, s) :: f) :: rest) n = getFree (f :: rest) n := by
        conv_lhs => unfold getFree
        conv_rhs => unfold getFree
        rw [hlk]
      rw [heq]
      exact h

theorem visitVariable_preserves_bound (self : Parser) (st : PState) (n m : String)
    (h : (getFree self.vtrack m).isSome = true) :
    (getFree (visitVariable self st n).2.1.vtrack m).isSome = true := by
  unfold visitVariable
  cases hg : getFree self.vtrack n with
  | none => simpa using h
  | some p =>
    rcases p with ⟨fl, v⟩
    cases fl
    · simpa using h
    · by_cases hp : self.pullFree
      · simp only [hp, if_true, genS]
        exact getFree_bindVT_isSome _ _ _ _ h
      · simp only [hp, if_false]
        simpa using h

theorem visitExpr_preserves_bound (e : PyExpr) :
    ∀ (self : Parser) (st : PState) (m : String),
    (getFree self.vtrack m).isSome = true →
    (getFree (visitExpr self st e).2.1.vtrack m).isSome = true := by
  induction e with
  | name n =>
    intro self st m h
    have hpre := visitVariable_preserves_bound self st n m h
    unfold visitExpr
    rcases hv : visitVariable self st n with ⟨s, self1, st1⟩
    rw [hv] at hpre
    simpa using hpre
  | num k =>
    intro self st m h
    simpa [visitExpr] using h
  | binop op l r ihl ihr =>
    intro self st m h
    have h1 := ihl self st m h
    unfold visitExpr
    rcases hl : visitExpr self st l with ⟨ln, self1, st1⟩
    rw [hl] at h1
    dsimp only
    have h2 := ihr self1 st1 m h1
    rcases hr : visitExpr self1 st1 r with ⟨rn, self2, st2⟩
    rw [hr] at h2
    simpa using h2

/-- C10: an augmented assignment `x op= e` whose target is a plain name
already bound somewhere in the scope chain translates to an `_Assign`
binding a brand-new generated identifier for the name (label `id`,
namespace `gen`, uid one above the generator counter) to
`Apply(op, prev, aug)` where `aug` is exactly the operand's translation
(pinned by the `visitExpr` equation) and `prev` is exactly the name's
current binding looked up by `self.vtrack[targ.id]` after
`visit_variable` ran (pinned by the `vtrackGet` equation) — recording
the name in the local-assignment set; the lookup cannot fail when the
name was bound before the statement; and an augmented assignment whose
target is a subscript or slice raises the `MyiaSyntaxError` rejection. -/
theorem c10_aug_assign :
    (∀ (self : Parser) (st : PState) (id op : String) (value : PyExpr)
       (aug : MyiaNode) (self1 : Parser) (st1 : PState)
       (w : Symbol) (self2 : Parser) (st2 : PState) (prev : Symbol),
      visitExpr self st value = (aug, self1, st1) →
      visitVariable self1 st1 id = (w, self2, st2) →
      vtrackGet self2.vtrack id = .ok prev →
      visitStmt self st (.augAssign (.tname id) op value) =
        .ok (.assignN ⟨id, "gen", st2.genCtr + 1⟩
               (.applyN (.symN (getOperator op)) [.symN prev, aug] false),
             { self2 with
               vtrack := bindVT self2.vtrack id ⟨id, "gen", st2.genCtr + 1⟩,
               localAssign := odInsertKey self2.localAssign id },
             { st2 with genCtr := st2.genCtr + 1 }) ∧
      id ∈ (odInsertKey self2.localAssign id)) ∧
    (∀ (self : Parser) (st : PState) (id : String) (value : PyExpr)
       (aug : MyiaNode) (self1 : Parser) (st1 : PState)
       (w : Symbol) (self2 : Parser) (st2 : PState),
      (getFree self.vtrack id).isSome = true →
      visitExpr self st value = (aug, self1, st1) →
      visitVariable self1 st1 id = (w, self2, st2) →
      ∃ prev : Symbol, vtrackGet self2.vtrack id = .ok prev) ∧
    (∀ (self : Parser) (st : PState) (base idx : PyExpr) (op : String) (value : PyExpr),
      visitStmt self st (.augAssign (.tsubscript base idx) op value) =
        .error (.syn "Augmented assignment to subscripts or slices is not supported.")) := by
  refine ⟨?_, ?_, ?_⟩
  · intro self st id op value aug self1 st1 w self2 st2 prev hv hw hg
    constructor
    · simp only [visitStmt]
      rw [hv]
      dsimp only
      rw [hw]
      dsimp only
      rw [hg]
      dsimp only
      simp [makeAssign, newVariable, genS]
    · exact odInsertKey_mem _ _
  · intro self st id value aug self1 st1 w self2 st2 h hv hw
    have hb1 := visitExpr_preserves_bound value self st id h
    rw [hv] at hb1
    have hb2 := visitVariable_preserves_bound self1 st1 id id hb1
    rw [hw] at hb2
    rcases hg : getFree self2.vtrack id with _ | ⟨fl, prev⟩
    · rw [hg] at hb2
      simp at hb2
    · refine ⟨prev, ?_⟩
      unfold vtrackGet
      rw [hg]
  · intro self st base idx op value
    simp [visitStmt]

/-- Witness for C10 on the top-level parser with `x` bound (its binding
is `⟨"x", "gen", 2⟩`), at `x += 1` — whose operand translates to
`Value 1` and whose previous binding is that very symbol — and at
`d[0] += 1`. -/
theorem c10_witness :
    (visitStmt wParser wState (.augAssign (.tname "x") "add" (.num 1)) =
        .ok (.assignN ⟨"x", "gen", wState.genCtr + 1⟩
               (.applyN (.symN (getOperator "add"))
                 [.symN ⟨"x", "gen", 2⟩, .valN 1] false),
             { wParser with
               vtrack := bindVT wParser.vtrack "x" ⟨"x", "gen", wState.genCtr + 1⟩,
               localAssign := odInsertKey wParser.localAssign "x" },
             { wState with genCtr := wState.genCtr + 1 }) ∧
      "x" ∈ (odInsertKey wParser.localAssign "x")) ∧
    (∃ prev : Symbol, vtrackGet wParser.vtrack "x" = .ok prev) ∧
    visitStmt wParser wState
        (.augAssign (.tsubscript (.name "d") (.num 0)) "add" (.num 1)) =
      .error (.syn "Augmented assignment to subscripts or slices is not supported.") :=
  ⟨c10_aug_assign.1 wParser wState "x" "add" (.num 1) (.valN 1) wParser wState
     ⟨"x", "gen", 2⟩ wParser wState ⟨"x", "gen", 2⟩ rfl rfl rfl,
   c10_aug_assign.2.1 wParser wState "x" (.num 1) (.valN 1) wParser wState
     ⟨"x", "gen", 2⟩ wParser wState rfl rfl rfl,
   c10_aug_assign.2.2 wParser wState (.name "d") (.num 0) "add" (.num 1)⟩

end Myia
